import Mathlib

/-!
Shallow embedding of `src/google/adk/tools/tool_context.py` (class `ToolContext`).

Modelling decisions:

* Python `dict[str, V]` becomes an association list `List (String × V)` with
  `dictGet` (first-occurrence lookup, as in `d[k]` / `k in d`) and `dictInsert`
  (dict item assignment: replace the value at an existing key in place,
  otherwise append at the end).
* The base class `CallbackContext` is not part of the sources; per the spec it
  exposes the `state` mapping and stores `_event_actions` (defaulted when the
  constructor receives none).  Following the spec's own design note, the base
  context is flattened into `ToolContext` as the fields `state` and
  `event_actions`.
* `AuthHandler` is an external collaborator constructed from an `AuthConfig`;
  theorems quantify over an arbitrary construction function
  `H : AuthConfig → AuthHandler`.
* Methods that mutate `self` are embedded in state-passing style: they return
  the updated `ToolContext` next to their result; `raise ValueError(msg)`
  becomes `Except.error msg`.  The `await` points of `list_artifacts` and
  `search_memory` delegate synchronously to the injected service functions.
* `InvocationContext.requested_auth_configs` is optional and nullable in the
  source (`hasattr` / truthiness guard); `none` models "attribute absent or
  `None`", `some m` models a present mapping `m` (possibly empty).
-/

/-- Opaque authentication configuration passed by callers. -/
structure AuthConfig where
  data : String
deriving DecidableEq

/-- Opaque resolved credential returned by `get_auth_response`. -/
structure AuthCredential where
  token : String
deriving DecidableEq

/-- Opaque auth request descriptor produced by `AuthHandler.generate_auth_request`. -/
structure AuthRequest where
  data : String
deriving DecidableEq

/-- Structured response of a memory-service search. -/
structure SearchMemoryResponse where
  memories : List String
deriving DecidableEq

/-- The session state mapping exposed by the base callback context. -/
abbrev SessionState := List (String × String)

/-- Lookup of key `k` in a Python-dict model: first occurrence wins. -/
def dictGet {α : Type} (m : List (String × α)) (k : String) : Option α :=
  match m with
  | [] => none
  | (k₀, v) :: rest => if k₀ = k then some v else dictGet rest k

/-- Python-dict item assignment `m[k] = v`: replace the value at an existing
key in place, otherwise append the new pair at the end. -/
def dictInsert {α : Type} (m : List (String × α)) (k : String) (v : α) :
    List (String × α) :=
  match m with
  | [] => [(k, v)]
  | (k₀, v₀) :: rest =>
      if k₀ = k then (k, v) :: rest else (k₀, v₀) :: dictInsert rest k v

/-- Number of entries of the mapping stored under key `k`. -/
def dictCountKey {α : Type} (m : List (String × α)) (k : String) : Nat :=
  match m with
  | [] => 0
  | (k₀, _) :: rest => (if k₀ = k then 1 else 0) + dictCountKey rest k

/-- External auth handler, constructed from an `AuthConfig`; it exposes
`generate_auth_request()` and `get_auth_response(state)`. -/
structure AuthHandler where
  generate_auth_request : AuthRequest
  get_auth_response : SessionState → AuthCredential

/-- The session referenced by the invocation context (only `id` is used). -/
structure Session where
  id : String
deriving DecidableEq

/-- Artifact service collaborator: `list_artifact_keys(app_name, user_id, session_id)`. -/
structure ArtifactService where
  list_artifact_keys : String → String → String → List String

/-- Memory service collaborator: `search_memory(app_name, user_id, query)`. -/
structure MemoryService where
  search_memory : String → String → String → SearchMemoryResponse

/-- The slice of `InvocationContext` consumed by `ToolContext`. -/
structure InvocationContext where
  app_name : String
  user_id : String
  session : Session
  artifact_service : Option ArtifactService
  memory_service : Option MemoryService
  requested_auth_configs : Option (List (String × AuthCredential))

/-- Record of side-effecting actions of the current tool call; the source
only touches its `requested_auth_configs` mapping. -/
structure EventActions where
  requested_auth_configs : List (String × AuthRequest)
deriving DecidableEq

/-- The context of the tool: invocation context, function call id, and the
base callback context's `event_actions` and `state`. -/
structure ToolContext where
  invocation_context : InvocationContext
  function_call_id : Option String
  event_actions : EventActions
  state : SessionState

/-- Modelled from the spec: the `ToolContext.__init__` / `CallbackContext.__init__`
chain (the base class is not under the sources) stores the invocation context
and function call id as given and initializes the base context with the given
event actions, defaulted to a fresh empty record when absent. -/
def ToolContext.make (ic : InvocationContext) (function_call_id : Option String)
    (event_actions : Option EventActions) (st : SessionState) : ToolContext :=
  { invocation_context := ic
    function_call_id := function_call_id
    event_actions := event_actions.getD { requested_auth_configs := [] }
    state := st }

/-- `ToolContext.actions` property: `return self._event_actions`. -/
def ToolContext.actions (tc : ToolContext) : EventActions :=
  tc.event_actions

/-- `ToolContext.request_credential(auth_config)`: raises `ValueError` when
`function_call_id` is falsy (absent or empty), otherwise stores the auth
request generated by `AuthHandler(auth_config)` under `function_call_id` in
`self._event_actions.requested_auth_configs`.  State-passing embedding: the
second component is the context after the call. -/
def ToolContext.request_credential (H : AuthConfig → AuthHandler)
    (tc : ToolContext) (auth_config : AuthConfig) :
    Except String Unit × ToolContext :=
  match tc.function_call_id with
  | none => (Except.error "function_call_id is not set.", tc)
  | some fid =>
      if fid = "" then (Except.error "function_call_id is not set.", tc)
      else
        (Except.ok (),
          { tc with
              event_actions :=
                { tc.event_actions with
                    requested_auth_configs :=
                      dictInsert tc.event_actions.requested_auth_configs fid
                        (H auth_config).generate_auth_request } })

/-- `ToolContext.get_auth_response(auth_config)`: if the invocation context
exposes a non-`None`, non-empty `requested_auth_configs` mapping containing
key `"bearer"`, return that entry; otherwise return
`AuthHandler(auth_config).get_auth_response(self.state)`.  State-passing
embedding: the second component is the context after the call. -/
def ToolContext.get_auth_response (H : AuthConfig → AuthHandler)
    (tc : ToolContext) (auth_config : AuthConfig) :
    AuthCredential × ToolContext :=
  match tc.invocation_context.requested_auth_configs with
  | some m =>
      if m = [] then ((H auth_config).get_auth_response tc.state, tc)
      else
        match dictGet m "bearer" with
        | some cred => (cred, tc)
        | none => ((H auth_config).get_auth_response tc.state, tc)
  | none => ((H auth_config).get_auth_response tc.state, tc)

/-- `ToolContext.list_artifacts()`: raises `ValueError` when the artifact
service is `None`, otherwise returns
`artifact_service.list_artifact_keys(app_name, user_id, session.id)`. -/
def ToolContext.list_artifacts (tc : ToolContext) : Except String (List String) :=
  match tc.invocation_context.artifact_service with
  | none => Except.error "Artifact service is not initialized."
  | some svc =>
      Except.ok
        (svc.list_artifact_keys tc.invocation_context.app_name
          tc.invocation_context.user_id tc.invocation_context.session.id)

/-- `ToolContext.search_memory(query)`: raises `ValueError` when the memory
service is `None`, otherwise returns
`memory_service.search_memory(app_name, user_id, query)`. -/
def ToolContext.search_memory (tc : ToolContext) (query : String) :
    Except String SearchMemoryResponse :=
  match tc.invocation_context.memory_service with
  | none => Except.error "Memory service is not available."
  | some svc =>
      Except.ok
        (svc.search_memory tc.invocation_context.app_name
          tc.invocation_context.user_id query)

/-! ### Lemmas about the Python-dict model -/

theorem dictGet_dictInsert_self {α : Type} (m : List (String × α)) (k : String)
    (v : α) : dictGet (dictInsert m k v) k = some v := by
  induction m with
  | nil => simp [dictInsert, dictGet]
  | cons p rest ih =>
      obtain ⟨k₀, v₀⟩ := p
      by_cases h : k₀ = k
      · simp [dictInsert, dictGet, h]
      · simp [dictInsert, dictGet, h, ih]

theorem dictGet_dictInsert_ne {α : Type} (m : List (String × α)) (k k₁ : String)
    (v : α) (h : k₁ ≠ k) : dictGet (dictInsert m k v) k₁ = dictGet m k₁ := by
  induction m with
  | nil => simp [dictInsert, dictGet, Ne.symm h]
  | cons p rest ih =>
      obtain ⟨k₀, v₀⟩ := p
      by_cases h₀ : k₀ = k
      · subst h₀
        simp [dictInsert, dictGet, Ne.symm h]
      · by_cases h₁ : k₀ = k₁
        · simp [dictInsert, dictGet, h₀, h₁, h]
        · simp [dictInsert, dictGet, h₀, h₁, ih]

theorem dictCountKey_eq_zero {α : Type} (m : List (String × α)) (k : String)
    (h : k ∉ m.map Prod.fst) : dictCountKey m k = 0 := by
  induction m with
  | nil => simp [dictCountKey]
  | cons p rest ih =>
      obtain ⟨k₀, v₀⟩ := p
      simp only [List.map_cons, List.mem_cons] at h
      push_neg at h
      simp [dictCountKey, Ne.symm h.1, ih h.2]

theorem dictCountKey_dictInsert {α : Type} (m : List (String × α)) (k : String)
    (v : α) (h : (m.map Prod.fst).Nodup) :
    dictCountKey (dictInsert m k v) k = 1 := by
  induction m with
  | nil => simp [dictInsert, dictCountKey]
  | cons p rest ih =>
      obtain ⟨k₀, v₀⟩ := p
      simp only [List.map_cons, List.nodup_cons] at h
      by_cases h₀ : k₀ = k
      · subst h₀
        simp [dictInsert, dictCountKey, dictCountKey_eq_zero rest k₀ h.1]
      · simp [dictInsert, dictCountKey, h₀, ih h.2]

theorem map_fst_dictInsert {α : Type} (m : List (String × α)) (k : String)
    (v : α) :
    (dictInsert m k v).map Prod.fst =
      if k ∈ m.map Prod.fst then m.map Prod.fst else m.map Prod.fst ++ [k] := by
  induction m with
  | nil => simp [dictInsert]
  | cons p rest ih =>
      obtain ⟨k₀, v₀⟩ := p
      by_cases h₀ : k₀ = k
      · simp [dictInsert, h₀]
      · by_cases hm : k ∈ rest.map Prod.fst
        · simp [dictInsert, h₀, hm, ih, Ne.symm h₀]
        · simp [dictInsert, h₀, hm, ih, Ne.symm h₀]

theorem nodup_map_fst_dictInsert {α : Type} (m : List (String × α)) (k : String)
    (v : α) (h : (m.map Prod.fst).Nodup) :
    ((dictInsert m k v).map Prod.fst).Nodup := by
  rw [map_fst_dictInsert]
  by_cases hm : k ∈ m.map Prod.fst
  · simpa [hm] using h
  · simp only [hm, if_false, List.nodup_append]
    exact ⟨h, List.nodup_singleton k, by simpa using hm⟩

/-! ### Concrete fixtures used by the witness theorems -/

/-- A concrete auth-handler construction for witnesses. -/
def sampleHandler : AuthConfig → AuthHandler := fun cfg =>
  { generate_auth_request := { data := cfg.data ++ "-req" }
    get_auth_response := fun st =>
        { token := cfg.data ++ ":" ++ (dictGet st "key").getD "-" } }

/-- A concrete artifact service. -/
def svcArtifacts : ArtifactService :=
  { list_artifact_keys := fun a u s => [a, u, s] }

/-- A concrete memory service. -/
def svcMemory : MemoryService :=
  { search_memory := fun a u q => { memories := [a, u, q] } }

/-- Invocation context exposing a bearer entry and no services. -/
def sampleInvocationBearer : InvocationContext :=
  { app_name := "app"
    user_id := "u"
    session := { id := "s1" }
    artifact_service := none
    memory_service := none
    requested_auth_configs := some [("bearer", { token := "tok" })] }

/-- Invocation context with both services and no requested-auth-configs mapping. -/
def sampleInvocationFallback : InvocationContext :=
  { app_name := "app"
    user_id := "u"
    session := { id := "s1" }
    artifact_service := some svcArtifacts
    memory_service := some svcMemory
    requested_auth_configs := none }

/-- Context with a bearer entry available and function call id `"fc1"`. -/
def tcBearer : ToolContext :=
  ToolContext.make sampleInvocationBearer (some "fc1") none []

/-- Context with services, a prior auth-request entry and function call id `"fc1"`. -/
def tcFallback : ToolContext :=
  ToolContext.make sampleInvocationFallback (some "fc1")
    (some { requested_auth_configs := [("old", { data := "o" })] })
    [("key", "val")]

/-- Context whose function call id is absent. -/
def tcNoFid : ToolContext :=
  ToolContext.make sampleInvocationFallback none none []

/-! ### Claim theorems -/

/-- C1: when the invocation context's `requested_auth_configs` mapping is
present, non-empty and contains the key `"bearer"`, `get_auth_response`
returns the value stored under `"bearer"`, for every `auth_config` and every
auth-handler construction (the handler is never consulted). -/
theorem get_auth_response_bearer_shortcut (H : AuthConfig → AuthHandler)
    (tc : ToolContext) (auth_config : AuthConfig)
    (m : List (String × AuthCredential)) (cred : AuthCredential)
    (hm : tc.invocation_context.requested_auth_configs = some m)
    (hne : m ≠ [])
    (hb : dictGet m "bearer" = some cred) :
    (tc.get_auth_response H auth_config).1 = cred := by
  simp [ToolContext.get_auth_response, hm, hne, hb]

/-- Witness for C1 at a concrete bearer-carrying context. -/
theorem get_auth_response_bearer_shortcut_witness :
    (tcBearer.get_auth_response sampleHandler { data := "any" }).1 =
      { token := "tok" } :=
  get_auth_response_bearer_shortcut sampleHandler tcBearer { data := "any" }
    [("bearer", { token := "tok" })] { token := "tok" } rfl (by decide) (by decide)

/-- C2: `request_credential` fails with the `ValueError` message exactly when
`function_call_id` is absent or empty, and succeeds whenever it is a
non-empty string, for every `auth_config`. -/
theorem request_credential_requires_function_call_id
    (H : AuthConfig → AuthHandler) (tc : ToolContext) (auth_config : AuthConfig) :
    ((tc.request_credential H auth_config).1 =
        Except.error "function_call_id is not set." ↔
      tc.function_call_id = none ∨ tc.function_call_id = some "") ∧
    ∀ s : String, tc.function_call_id = some s → s ≠ "" →
      (tc.request_credential H auth_config).1 = Except.ok () := by
  constructor
  · constructor
    · intro h
      cases hf : tc.function_call_id with
      | none => exact Or.inl rfl
      | some s =>
          by_cases hs : s = ""
          · exact Or.inr (by simp [hf, hs])
          · simp [ToolContext.request_credential, hf, hs] at h
    · intro h
      rcases h with h | h <;> simp [ToolContext.request_credential, h]
  · intro s hf hs
    simp [ToolContext.request_credential, hf, hs]

/-- Witness for C2: error on an absent id, success on `"fc1"`. -/
theorem request_credential_requires_function_call_id_witness :
    (tcNoFid.request_credential sampleHandler { data := "a" }).1 =
      Except.error "function_call_id is not set." ∧
    (tcFallback.request_credential sampleHandler { data := "a" }).1 =
      Except.ok () := by
  have h1 :=
    request_credential_requires_function_call_id sampleHandler tcNoFid { data := "a" }
  have h2 :=
    request_credential_requires_function_call_id sampleHandler tcFallback { data := "a" }
  exact ⟨h1.1.mpr (Or.inl rfl), h2.2 "fc1" rfl (by decide)⟩

/-- C3: with a non-empty `function_call_id`, `request_credential` succeeds,
stores the auth request generated from `auth_config` under that id, leaves
every other key of the `requested_auth_configs` mapping unchanged, and
changes no other field of the context. -/
theorem request_credential_inserts_single_entry
    (H : AuthConfig → AuthHandler) (tc : ToolContext) (auth_config : AuthConfig)
    (s : String) (hf : tc.function_call_id = some s) (hs : s ≠ "") :
    (tc.request_credential H auth_config).1 = Except.ok () ∧
    dictGet
        (tc.request_credential H auth_config).2.event_actions.requested_auth_configs
        s = some (H auth_config).generate_auth_request ∧
    (∀ k : String, k ≠ s →
      dictGet
          (tc.request_credential H auth_config).2.event_actions.requested_auth_configs
          k = dictGet tc.event_actions.requested_auth_configs k) ∧
    (tc.request_credential H auth_config).2.invocation_context =
      tc.invocation_context ∧
    (tc.request_credential H auth_config).2.function_call_id =
      tc.function_call_id ∧
    (tc.request_credential H auth_config).2.state = tc.state := by
  refine ⟨?_, ?_, ?_, ?_, ?_, ?_⟩ <;>
    simp [ToolContext.request_credential, hf, hs, dictGet_dictInsert_self]
  exact fun k hk => dictGet_dictInsert_ne _ s k _ hk

/-- Witness for C3: inserting under `"fc1"` keeps the `"old"` entry intact. -/
theorem request_credential_inserts_single_entry_witness :
    (tcFallback.request_credential sampleHandler { data := "a" }).1 =
      Except.ok () ∧
    dictGet
        (tcFallback.request_credential sampleHandler
            { data := "a" }).2.event_actions.requested_auth_configs
        "fc1" = some { data := "a-req" } ∧
    dictGet
        (tcFallback.request_credential sampleHandler
            { data := "a" }).2.event_actions.requested_auth_configs
        "old" = some { data := "o" } := by
  have h :=
    request_credential_inserts_single_entry sampleHandler tcFallback
      { data := "a" } "fc1" rfl (by decide)
  refine ⟨h.1, ?_, ?_⟩
  · rw [h.2.1]; decide
  · rw [h.2.2.1 "old" (by decide)]; decide

/-- C4: when the invocation context has no `requested_auth_configs` mapping,
or an empty one, or one without the key `"bearer"`, `get_auth_response`
returns exactly the auth handler's response computed from the state. -/
theorem get_auth_response_fallback (H : AuthConfig → AuthHandler)
    (tc : ToolContext) (auth_config : AuthConfig)
    (h : tc.invocation_context.requested_auth_configs = none ∨
         tc.invocation_context.requested_auth_configs = some [] ∨
         ∃ m, tc.invocation_context.requested_auth_configs = some m ∧
              dictGet m "bearer" = none) :
    (tc.get_auth_response H auth_config).1 =
      (H auth_config).get_auth_response tc.state := by
  rcases h with h | h | ⟨m, hm, hb⟩
  · simp [ToolContext.get_auth_response, h]
  · simp [ToolContext.get_auth_response, h]
  · by_cases hne : m = []
    · subst hne
      simp [ToolContext.get_auth_response, hm]
    · simp [ToolContext.get_auth_response, hm, hne, hb]

/-- Witness for C4 at a context with no requested-auth-configs mapping. -/
theorem get_auth_response_fallback_witness :
    (tcFallback.get_auth_response sampleHandler { data := "c" }).1 =
      { token := "c:val" } := by
  rw [get_auth_response_fallback sampleHandler tcFallback { data := "c" }
        (Or.inl rfl)]
  decide

/-- C5: `list_artifacts` fails with the `ValueError` message exactly when the
artifact service is `None`; with a service present it returns the service's
`list_artifact_keys` result for `(app_name, user_id, session.id)`. -/
theorem list_artifacts_requires_artifact_service (tc : ToolContext) :
    (tc.list_artifacts = Except.error "Artifact service is not initialized." ↔
      tc.invocation_context.artifact_service = none) ∧
    ∀ svc : ArtifactService,
      tc.invocation_context.artifact_service = some svc →
      tc.list_artifacts =
        Except.ok
          (svc.list_artifact_keys tc.invocation_context.app_name
            tc.invocation_context.user_id tc.invocation_context.session.id) := by
  constructor
  · constructor
    · intro h
      cases ha : tc.invocation_context.artifact_service with
      | none => rfl
      | some svc => simp [ToolContext.list_artifacts, ha] at h
    · intro h
      simp [ToolContext.list_artifacts, h]
  · intro svc h
    simp [ToolContext.list_artifacts, h]

/-- Witness for C5: error with no service, the service's keys with one. -/
theorem list_artifacts_requires_artifact_service_witness :
    tcBearer.list_artifacts =
      Except.error "Artifact service is not initialized." ∧
    tcFallback.list_artifacts = Except.ok ["app", "u", "s1"] := by
  have h1 := list_artifacts_requires_artifact_service tcBearer
  have h2 := list_artifacts_requires_artifact_service tcFallback
  exact ⟨h1.1.mpr rfl, by rw [h2.2 svcArtifacts rfl]; rfl⟩

/-- C6: `search_memory` fails with the `ValueError` message exactly when the
memory service is `None`; with a service present it returns the service's
search response for `(app_name, user_id, query)`. -/
theorem search_memory_requires_memory_service (tc : ToolContext) (query : String) :
    (tc.search_memory query = Except.error "Memory service is not available." ↔
      tc.invocation_context.memory_service = none) ∧
    ∀ svc : MemoryService,
      tc.invocation_context.memory_service = some svc →
      tc.search_memory query =
        Except.ok
          (svc.search_memory tc.invocation_context.app_name
            tc.invocation_context.user_id query) := by
  constructor
  · constructor
    · intro h
      cases ha : tc.invocation_context.memory_service with
      | none => rfl
      | some svc => simp [ToolContext.search_memory, ha] at h
    · intro h
      simp [ToolContext.search_memory, h]
  · intro svc h
    simp [ToolContext.search_memory, h]

/-- Witness for C6: error with no service, the service's response with one. -/
theorem search_memory_requires_memory_service_witness :
    tcBearer.search_memory "q" =
      Except.error "Memory service is not available." ∧
    tcFallback.search_memory "q" =
      Except.ok { memories := ["app", "u", "q"] } := by
  have h1 := search_memory_requires_memory_service tcBearer "q"
  have h2 := search_memory_requires_memory_service tcFallback "q"
  exact ⟨h1.1.mpr rfl, by rw [h2.2 svcMemory rfl]; rfl⟩

/-- C7: `get_auth_response` mutates nothing: the context after the call is
the context before the call, on every path. -/
theorem get_auth_response_no_mutation (H : AuthConfig → AuthHandler)
    (tc : ToolContext) (auth_config : AuthConfig) :
    (tc.get_auth_response H auth_config).2 = tc := by
  cases hm : tc.invocation_context.requested_auth_configs with
  | none => simp [ToolContext.get_auth_response, hm]
  | some m =>
      by_cases hne : m = []
      · simp [ToolContext.get_auth_response, hm, hne]
      · cases hb : dictGet m "bearer" <;>
          simp [ToolContext.get_auth_response, hm, hne, hb]

/-- C8: a context constructed with a given event-actions record answers
exactly that record through the `actions` accessor; the read is a pure
projection. -/
theorem actions_returns_constructed_event_actions (ic : InvocationContext)
    (fid : Option String) (ea : EventActions) (st : SessionState) :
    (ToolContext.make ic fid (some ea) st).actions = ea := rfl

/-- C9: a failing `request_credential` call (absent or empty
`function_call_id`) reports the `ValueError` and leaves the whole context,
in particular the `requested_auth_configs` mapping, unchanged. -/
theorem request_credential_atomic_on_error (H : AuthConfig → AuthHandler)
    (tc : ToolContext) (auth_config : AuthConfig)
    (h : tc.function_call_id = none ∨ tc.function_call_id = some "") :
    (tc.request_credential H auth_config).1 =
      Except.error "function_call_id is not set." ∧
    (tc.request_credential H auth_config).2 = tc := by
  rcases h with h | h <;> simp [ToolContext.request_credential, h]

/-- Witness for C9 at a context with an absent function call id. -/
theorem request_credential_atomic_on_error_witness :
    (tcNoFid.request_credential sampleHandler { data := "a" }).1 =
      Except.error "function_call_id is not set." ∧
    (tcNoFid.request_credential sampleHandler { data := "a" }).2 = tcNoFid :=
  request_credential_atomic_on_error sampleHandler tcNoFid { data := "a" }
    (Or.inl rfl)

/-- C10: two successive `request_credential` calls with the same non-empty
`function_call_id` leave the auth request generated from the second config
under that id (last write wins), every other key unchanged; and when the
original mapping has no duplicate keys, exactly one entry sits under the id. -/
theorem request_credential_last_write_wins (H : AuthConfig → AuthHandler)
    (tc : ToolContext) (cfg1 cfg2 : AuthConfig) (s : String)
    (hf : tc.function_call_id = some s) (hs : s ≠ "") :
    dictGet
        ((tc.request_credential H cfg1).2.request_credential H
            cfg2).2.event_actions.requested_auth_configs
        s = some (H cfg2).generate_auth_request ∧
    (∀ k : String, k ≠ s →
      dictGet
          ((tc.request_credential H cfg1).2.request_credential H
              cfg2).2.event_actions.requested_auth_configs
          k = dictGet tc.event_actions.requested_auth_configs k) ∧
    ((tc.event_actions.requested_auth_configs.map Prod.fst).Nodup →
      dictCountKey
          ((tc.request_credential H cfg1).2.request_credential H
              cfg2).2.event_actions.requested_auth_configs
          s = 1) := by
  have hmap :
      ((tc.request_credential H cfg1).2.request_credential H
          cfg2).2.event_actions.requested_auth_configs =
        dictInsert
          (dictInsert tc.event_actions.requested_auth_configs s
            (H cfg1).generate_auth_request)
          s (H cfg2).generate_auth_request := by
    simp [ToolContext.request_credential, hf, hs]
  refine ⟨?_, ?_, ?_⟩
  · rw [hmap]
    exact dictGet_dictInsert_self _ _ _
  · intro k hk
    rw [hmap, dictGet_dictInsert_ne _ _ _ _ hk, dictGet_dictInsert_ne _ _ _ _ hk]
  · intro hnd
    rw [hmap]
    exact dictCountKey_dictInsert _ _ _ (nodup_map_fst_dictInsert _ _ _ hnd)

/-- Witness for C10: after two calls on `tcFallback`, key `"fc1"` holds the
request generated from the second config, the `"old"` key is untouched, and
exactly one entry sits under `"fc1"`. -/
theorem request_credential_last_write_wins_witness :
    dictGet
        ((tcFallback.request_credential sampleHandler
              { data := "a" }).2.request_credential sampleHandler
            { data := "b" }).2.event_actions.requested_auth_configs
        "fc1" = some { data := "b-req" } ∧
    dictGet
        ((tcFallback.request_credential sampleHandler
              { data := "a" }).2.request_credential sampleHandler
            { data := "b" }).2.event_actions.requested_auth_configs
        "old" = some { data := "o" } ∧
    dictCountKey
        ((tcFallback.request_credential sampleHandler
              { data := "a" }).2.request_credential sampleHandler
            { data := "b" }).2.event_actions.requested_auth_configs
        "fc1" = 1 := by
  have h :=
    request_credential_last_write_wins sampleHandler tcFallback { data := "a" }
      { data := "b" } "fc1" rfl (by decide)
  refine ⟨?_, ?_, ?_⟩
  · rw [h.1]; decide
  · rw [h.2.1 "old" (by decide)]; decide
  · exact h.2.2 (by decide)
